import Mathlib

/-!
Verification of the tax and pricing computation of a gold-jewellery ERP.

Monetary amounts are embedded as exact rationals (`ℚ`); the JavaScript
`x.toFixed(2)` / `parseFloat` pipeline that rounds an amount to two decimal
places is embedded as `round2`, using the round-half-up convention of
`Number.prototype.toFixed` on positive amounts.

The cart logic (`addToCart`, `updateQuantity`, `removeFromCart`,
`calculateTotals`) is translated from `frontend/src/pages/CreateSalePage.js`;
the product form pricing from `frontend/src/pages/ProductFormPage.js`; the
invoice GST-type classification from the invoice detail page.  The backend
computations (invoice building, karat price calculation, GSTR-3B aggregation,
GSTR-2A/2B reconciliation) are not part of the repository sources — only
their frontend callers are — and are modelled from the specification, as
marked in their doc comments.
-/

/-- Rounding to two decimal places: `parseFloat(x.toFixed(2))`, half rounded
upward as ECMAScript `toFixed` does on a positive tie. -/
def round2 (q : ℚ) : ℚ := (((100 * q + 1 / 2).floor : ℤ) : ℚ) / 100

theorem rat_floor_eq_int_floor (q : ℚ) : q.floor = ⌊q⌋ := by
  rw [Rat.floor_def, Rat.floor_def']

/-- `round2` is rounding to the nearest integer number of hundredths,
halves upward. -/
theorem round2_eq_round (q : ℚ) : round2 q = ((round (100 * q) : ℤ) : ℚ) / 100 := by
  rw [round2, round_eq, rat_floor_eq_int_floor]

/-- A product as fetched from `/inventory/products` and consumed by the
create-sale page; `quantity` is the available stock. -/
structure Product where
  id : ℕ
  name : String
  sku : String
  selling_price : ℚ
  base_price : ℚ
  gst_rate : ℚ
  hsn_code : String
  quantity : ℤ
deriving DecidableEq

/-- A cart line item as built by `CreateSalePage.js`. -/
structure CartItem where
  product_id : ℕ
  product_name : String
  sku : String
  quantity : ℤ
  unit_price : ℚ
  hsn_code : String
  gst_rate : ℚ
  total_before_tax : ℚ
  tax_amount : ℚ
  total_after_tax : ℚ
  max_quantity : ℤ
deriving DecidableEq

/-- The body of the `cart.map` callback inside `updateQuantity`
(`CreateSalePage.js` lines 105–127); `none` encodes the `null` that the
trailing `.filter(Boolean)` drops. -/
def updItem (productId : ℕ) (newQuantity : ℤ) (item : CartItem) : Option CartItem :=
  if item.product_id = productId then
    if newQuantity > item.max_quantity then some item
    else if newQuantity ≤ 0 then none
    else
      let total_before_tax := item.unit_price / (1 + item.gst_rate / 100) * (newQuantity : ℚ)
      let total_after_tax := item.unit_price * (newQuantity : ℚ)
      let tax_amount := total_after_tax - total_before_tax
      some { item with
        quantity := newQuantity
        total_before_tax := round2 total_before_tax
        tax_amount := round2 tax_amount
        total_after_tax := round2 total_after_tax }
  else some item

/-- `updateQuantity` (`CreateSalePage.js` lines 104–128):
`cart.map(...).filter(Boolean)`. -/
def updateQuantity (cart : List CartItem) (productId : ℕ) (newQuantity : ℤ) :
    List CartItem :=
  cart.filterMap (updItem productId newQuantity)

/-- The object literal pushed by `addToCart` for a product not yet in the
cart (`CreateSalePage.js` lines 87–99). -/
def newItem (product : Product) : CartItem :=
  { product_id := product.id
    product_name := product.name
    sku := product.sku
    quantity := 1
    unit_price := product.selling_price
    hsn_code := product.hsn_code
    gst_rate := product.gst_rate
    total_before_tax := product.base_price
    tax_amount := product.selling_price - product.base_price
    total_after_tax := product.selling_price
    max_quantity := product.quantity }

/-- `addToCart` (`CreateSalePage.js` lines 77–102).  Re-adding an existing
product at the stock limit shows a toast and leaves the cart unchanged;
below the limit it delegates to `updateQuantity` with quantity + 1. -/
def addToCart (cart : List CartItem) (product : Product) : List CartItem :=
  match cart.find? (fun item => item.product_id == product.id) with
  | some existingItem =>
    if existingItem.quantity ≥ product.quantity then cart
    else updateQuantity cart product.id (existingItem.quantity + 1)
  | none => cart ++ [newItem product]

/-- `removeFromCart` (`CreateSalePage.js` lines 130–132). -/
def removeFromCart (cart : List CartItem) (productId : ℕ) : List CartItem :=
  cart.filter (fun item => item.product_id != productId)

/-- The three sums displayed by `calculateTotals` (`CreateSalePage.js`
lines 134–144), each formatted with `toFixed(2)`. -/
structure CartTotals where
  subtotal : ℚ
  tax : ℚ
  total : ℚ
deriving DecidableEq

/-- `calculateTotals` (`CreateSalePage.js` lines 134–144). -/
def calculateTotals (cart : List CartItem) : CartTotals :=
  { subtotal := round2 ((cart.map CartItem.total_before_tax).sum)
    tax := round2 ((cart.map CartItem.tax_amount).sum)
    total := round2 ((cart.map CartItem.total_after_tax).sum) }

/-- A user action on the cart page. -/
inductive CartOp where
  | add (product : Product)
  | upd (productId : ℕ) (newQuantity : ℤ)
  | remove (productId : ℕ)

/-- Apply one cart action. -/
def applyOp (cart : List CartItem) : CartOp → List CartItem
  | .add p => addToCart cart p
  | .upd pid q => updateQuantity cart pid q
  | .remove pid => removeFromCart cart pid

/-- Apply a sequence of cart actions, first action first. -/
def applyOps (ops : List CartOp) (cart : List CartItem) : List CartItem :=
  ops.foldl applyOp cart

example :
    round2 (100 / (1 + (3 : ℚ) / 100)) = 9709 / 100 := by
  rw [round2, rat_floor_eq_int_floor]
  norm_num

example :
    (addToCart []
      { id := 1, name := "Ring", sku := "R1", selling_price := 100, base_price := 90
        gst_rate := 3, hsn_code := "7113", quantity := 5 }).length = 1 := by
  simp [addToCart, newItem]

/-- `round2` moves an amount by at most half a hundredth. -/
theorem abs_round2_sub (q : ℚ) : |round2 q - q| ≤ 1 / 200 := by
  rw [round2_eq_round]
  have h := abs_sub_round (100 * q)
  have key : (round (100 * q) : ℚ) / 100 - q = -((100 * q - round (100 * q)) / 100) := by
    ring
  rw [key, abs_neg, abs_div]
  have h100 : |(100 : ℚ)| = 100 := by norm_num
  rw [h100]
  linarith

/-- Rounding the two parts of a sum separately lands within one hundredth of
rounding the sum itself: the three stored fields of an updated cart line can
disagree by at most `0.01`. -/
theorem abs_round2_split (A B : ℚ) :
    |round2 A - (round2 B + round2 (A - B))| ≤ 1 / 100 := by
  set n : ℤ := round (100 * A) - round (100 * B) - round (100 * (A - B)) with hn
  have hval : round2 A - (round2 B + round2 (A - B)) = (n : ℚ) / 100 := by
    rw [round2_eq_round, round2_eq_round, round2_eq_round, hn]
    push_cast
    ring
  have b1 := abs_le.mp (abs_sub_round (100 * A))
  have b2 := abs_le.mp (abs_sub_round (100 * B))
  have b3 := abs_le.mp (abs_sub_round (100 * (A - B)))
  have habs : |(n : ℚ)| ≤ 3 / 2 := by
    rw [abs_le]
    constructor <;>
      · push_cast [hn]
        linarith [b1.1, b1.2, b2.1, b2.2, b3.1, b3.2]
  have hint : |n| ≤ 1 := by
    by_contra hgt
    push_neg at hgt
    have h2le : (2 : ℤ) ≤ |n| := hgt
    have : (2 : ℚ) ≤ |(n : ℚ)| := by
      rw [← Int.cast_abs]
      exact_mod_cast h2le
    linarith
  have hq : |(n : ℚ)| ≤ 1 := by
    rw [← Int.cast_abs]
    exact_mod_cast hint
  rw [hval, abs_div]
  have h100 : |(100 : ℚ)| = 100 := by norm_num
  rw [h100]
  linarith

/-- Inversion for `updItem`: a surviving line is either untouched or carries
the recomputed quantity and rounded totals. -/
theorem updItem_inv {pid : ℕ} {q : ℤ} {item item' : CartItem}
    (h : updItem pid q item = some item') :
    item' = item ∨
      (item.product_id = pid ∧ 0 < q ∧ q ≤ item.max_quantity ∧
        item' = { item with
          quantity := q
          total_before_tax := round2 (item.unit_price / (1 + item.gst_rate / 100) * (q : ℚ))
          tax_amount := round2 (item.unit_price * (q : ℚ)
            - item.unit_price / (1 + item.gst_rate / 100) * (q : ℚ))
          total_after_tax := round2 (item.unit_price * (q : ℚ)) }) := by
  unfold updItem at h
  split at h
  · split at h
    · left
      exact (Option.some.inj h).symm
    · split at h
      · exact absurd h (by simp)
      · right
        refine ⟨by assumption, by omega, by omega, ?_⟩
        exact (Option.some.inj h).symm
  · left
    exact (Option.some.inj h).symm

/-- `updItem` never changes which product a line refers to. -/
theorem updItem_product_id {pid : ℕ} {q : ℤ} {item item' : CartItem}
    (h : updItem pid q item = some item') :
    item'.product_id = item.product_id := by
  rcases updItem_inv h with h1 | ⟨_, _, _, h1⟩ <;> subst h1 <;> rfl

/-- `updItem` never changes a line's stock cap. -/
theorem updItem_max_quantity {pid : ℕ} {q : ℤ} {item item' : CartItem}
    (h : updItem pid q item = some item') :
    item'.max_quantity = item.max_quantity := by
  rcases updItem_inv h with h1 | ⟨_, _, _, h1⟩ <;> subst h1 <;> rfl

/-- The product ids surviving `updateQuantity` are a sublist of the original
ids. -/
theorem updateQuantity_pid_sublist (cart : List CartItem) (pid : ℕ) (q : ℤ) :
    ((updateQuantity cart pid q).map CartItem.product_id).Sublist
      (cart.map CartItem.product_id) := by
  induction cart with
  | nil => simp [updateQuantity]
  | cons a l ih =>
    rw [updateQuantity, List.filterMap_cons]
    cases h : updItem pid q a with
    | none =>
      simp only [List.map_cons]
      exact (ih.trans (List.sublist_cons_self _ _))
    | some b =>
      simp only [List.map_cons]
      rw [updItem_product_id h]
      exact List.Sublist.cons₂ _ ih

/-- The cart invariant: one line per product, and every quantity between 1
and the line's stock cap. -/
def CartInv (cart : List CartItem) : Prop :=
  (cart.map CartItem.product_id).Nodup ∧
    ∀ item ∈ cart, 1 ≤ item.quantity ∧ item.quantity ≤ item.max_quantity

theorem cartInv_updateQuantity {cart : List CartItem} (pid : ℕ) (q : ℤ)
    (h : CartInv cart) : CartInv (updateQuantity cart pid q) := by
  refine ⟨(updateQuantity_pid_sublist cart pid q).nodup h.1, ?_⟩
  intro item' hmem
  rw [updateQuantity, List.mem_filterMap] at hmem
  obtain ⟨item, hitem, hsome⟩ := hmem
  rcases updItem_inv hsome with h1 | ⟨_, hq0, hqmax, h1⟩
  · subst h1
    exact h.2 _ hitem
  · subst h1
    have hq1 : (1 : ℤ) ≤ q := by omega
    exact ⟨by simpa using hq1, by simpa using hqmax⟩

theorem cartInv_removeFromCart {cart : List CartItem} (pid : ℕ)
    (h : CartInv cart) : CartInv (removeFromCart cart pid) := by
  refine ⟨List.Sublist.nodup (List.Sublist.map _ (List.filter_sublist _)) h.1, ?_⟩
  intro item hmem
  exact h.2 item (List.mem_of_mem_filter hmem)

theorem cartInv_addToCart {cart : List CartItem} {p : Product}
    (h : CartInv cart) (hstock : 1 ≤ p.quantity) : CartInv (addToCart cart p) := by
  rw [addToCart]
  cases hfind : cart.find? (fun item => item.product_id == p.id) with
  | some existingItem =>
    by_cases hge : existingItem.quantity ≥ p.quantity
    · simpa [hge] using h
    · simp only [hge, if_false]
      exact cartInv_updateQuantity p.id (existingItem.quantity + 1) h
  | none =>
    have hnotin : ∀ item ∈ cart, item.product_id ≠ p.id := by
      intro item hitem
      have := List.find?_eq_none.mp hfind item hitem
      simpa using this
    constructor
    · rw [List.map_append]
      simp only [newItem, List.map_cons, List.map_nil]
      rw [List.nodup_append]
      refine ⟨h.1, List.nodup_singleton _, ?_⟩
      intro x hx
      rw [List.mem_map] at hx
      obtain ⟨item, hitem, rfl⟩ := hx
      simp only [List.mem_singleton]
      exact fun hcontra => hnotin item hitem hcontra
    · intro item hitem
      rw [List.mem_append] at hitem
      rcases hitem with hold | hnew
      · exact h.2 item hold
      · rw [List.mem_singleton] at hnew
        subst hnew
        exact ⟨le_refl 1, hstock⟩

/-- One cart action preserves the invariant, given positive stock on added
products. -/
theorem cartInv_applyOp {cart : List CartItem} {op : CartOp} (h : CartInv cart)
    (hstock : ∀ p : Product, op = CartOp.add p → 1 ≤ p.quantity) :
    CartInv (applyOp cart op) := by
  cases op with
  | add p => exact cartInv_addToCart h (hstock p rfl)
  | upd pid q => exact cartInv_updateQuantity pid q h
  | remove pid => exact cartInv_removeFromCart pid h

/-- Any action sequence preserves the invariant. -/
theorem cartInv_applyOps {ops : List CartOp} {cart : List CartItem}
    (h : CartInv cart)
    (hstock : ∀ p : Product, CartOp.add p ∈ ops → 1 ≤ p.quantity) :
    CartInv (applyOps ops cart) := by
  induction ops generalizing cart with
  | nil => simpa [applyOps] using h
  | cons op rest ih =>
    rw [applyOps, List.foldl_cons]
    exact ih (cartInv_applyOp h (fun p hp => hstock p (by simp [hp])))
      (fun p hp => hstock p (List.mem_cons_of_mem _ hp))

/-- With a positive new quantity, `updItem` never drops a line. -/
theorem updItem_isSome_of_pos {pid : ℕ} {q : ℤ} (item : CartItem) (hq : 0 < q) :
    (updItem pid q item).isSome := by
  unfold updItem
  split
  · split
    · simp
    · split
      · omega
      · simp
  · simp

theorem filterMap_length_of_isSome {α β : Type} {f : α → Option β} {l : List α}
    (h : ∀ a ∈ l, (f a).isSome) : (l.filterMap f).length = l.length := by
  induction l with
  | nil => simp
  | cons a rest ih =>
    rw [List.filterMap_cons]
    cases hfa : f a with
    | none =>
      have := h a (List.mem_cons_self a rest)
      rw [hfa] at this
      simp at this
    | some b =>
      simp only [List.length_cons]
      rw [ih (fun x hx => h x (List.mem_cons_of_mem _ hx))]

/-- Re-adding a product already in the cart never appends a line. -/
theorem addToCart_length_of_mem {cart : List CartItem} {p : Product}
    (hinv : CartInv cart) (hmem : ∃ item ∈ cart, item.product_id = p.id) :
    (addToCart cart p).length = cart.length := by
  obtain ⟨witem, hw, hwid⟩ := hmem
  have hfind : (cart.find? (fun item => item.product_id == p.id)).isSome := by
    rw [List.find?_isSome]
    exact ⟨witem, hw, by simpa using hwid⟩
  rw [addToCart]
  cases hf : cart.find? (fun item => item.product_id == p.id) with
  | none => rw [hf] at hfind; simp at hfind
  | some existingItem =>
    by_cases hge : existingItem.quantity ≥ p.quantity
    · simp [hge]
    · simp only [hge, if_false]
      have hex : existingItem ∈ cart := List.mem_of_find?_eq_some hf
      have hq1 : 1 ≤ existingItem.quantity := (hinv.2 existingItem hex).1
      exact filterMap_length_of_isSome
        (fun item _ => updItem_isSome_of_pos item (by omega))

/-- `updateQuantity` with a non-positive quantity removes the product's line. -/
theorem updateQuantity_removes {cart : List CartItem} {pid : ℕ} {q : ℤ}
    (hinv : CartInv cart) (hq : q ≤ 0) :
    ∀ item' ∈ updateQuantity cart pid q, item'.product_id ≠ pid := by
  intro item' hmem
  rw [updateQuantity, List.mem_filterMap] at hmem
  obtain ⟨item, hitem, hsome⟩ := hmem
  have hbounds := hinv.2 item hitem
  rw [updItem_product_id hsome]
  intro hpid
  rw [updItem] at hsome
  rw [if_pos hpid] at hsome
  have hmax : ¬ q > item.max_quantity := by omega
  rw [if_neg hmax, if_pos hq] at hsome
  exact Option.noConfusion hsome

/-- Line-level consistency: the stored after-tax total differs from the sum
of the stored base and tax by at most one hundredth. -/
def ItemConsistent (item : CartItem) : Prop :=
  |item.total_after_tax - (item.total_before_tax + item.tax_amount)| ≤ 1 / 100

theorem itemConsistent_newItem (p : Product) : ItemConsistent (newItem p) := by
  rw [ItemConsistent, newItem]
  simp only
  have h : p.selling_price - (p.base_price + (p.selling_price - p.base_price)) = 0 := by
    ring
  rw [h]
  norm_num

theorem itemConsistent_updItem {pid : ℕ} {q : ℤ} {item item' : CartItem}
    (h : ItemConsistent item) (hsome : updItem pid q item = some item') :
    ItemConsistent item' := by
  rcases updItem_inv hsome with h1 | ⟨_, _, _, h1⟩
  · subst h1
    exact h
  · subst h1
    rw [ItemConsistent]
    simp only
    exact abs_round2_split (item.unit_price * (q : ℚ))
      (item.unit_price / (1 + item.gst_rate / 100) * (q : ℚ))

theorem itemConsistent_applyOp {cart : List CartItem} {op : CartOp}
    (h : ∀ item ∈ cart, ItemConsistent item) :
    ∀ item ∈ applyOp cart op, ItemConsistent item := by
  cases op with
  | add p =>
    intro item hitem
    rw [applyOp, addToCart] at hitem
    split at hitem
    · split at hitem
      · exact h item hitem
      · rw [updateQuantity, List.mem_filterMap] at hitem
        obtain ⟨it, hit, hsome⟩ := hitem
        exact itemConsistent_updItem (h it hit) hsome
    · simp only [List.mem_append, List.mem_singleton] at hitem
      rcases hitem with hold | hnew
      · exact h item hold
      · subst hnew
        exact itemConsistent_newItem p
  | upd pid q =>
    intro item hitem
    rw [applyOp, updateQuantity, List.mem_filterMap] at hitem
    obtain ⟨it, hit, hsome⟩ := hitem
    exact itemConsistent_updItem (h it hit) hsome
  | remove pid =>
    intro item hitem
    exact h item (List.mem_of_mem_filter hitem)

/-- Every line of a cart reached from the empty cart is consistent to within
one hundredth. -/
theorem itemConsistent_applyOps (ops : List CartOp) :
    ∀ item ∈ applyOps ops [], ItemConsistent item := by
  have gen : ∀ (ops : List CartOp) (cart : List CartItem),
      (∀ item ∈ cart, ItemConsistent item) →
      ∀ item ∈ applyOps ops cart, ItemConsistent item := by
    intro ops
    induction ops with
    | nil => intro cart h; simpa [applyOps] using h
    | cons op rest ih =>
      intro cart h
      rw [applyOps, List.foldl_cons]
      exact ih (applyOp cart op) (itemConsistent_applyOp h)
  exact gen ops [] (by simp)

/-- Accumulating a per-line discrepancy of at most `c` over a list bounds the
aggregate discrepancy by `length * c`. -/
theorem abs_sum_sub_le {f g h : CartItem → ℚ} {c : ℚ} (l : List CartItem)
    (hb : ∀ x ∈ l, |f x - (g x + h x)| ≤ c) :
    |(l.map f).sum - ((l.map g).sum + (l.map h).sum)| ≤ l.length * c := by
  induction l with
  | nil => simp
  | cons a rest ih =>
    have ha := hb a (List.mem_cons_self a rest)
    have hrest := ih (fun x hx => hb x (List.mem_cons_of_mem _ hx))
    simp only [List.map_cons, List.sum_cons, List.length_cons]
    have key : f a + (rest.map f).sum - ((g a + (rest.map g).sum) + (h a + (rest.map h).sum))
        = (f a - (g a + h a)) + ((rest.map f).sum - ((rest.map g).sum + (rest.map h).sum)) := by
      ring
    rw [key]
    calc |(f a - (g a + h a)) + ((rest.map f).sum - ((rest.map g).sum + (rest.map h).sum))|
        ≤ |f a - (g a + h a)| + |(rest.map f).sum - ((rest.map g).sum + (rest.map h).sum)| :=
          abs_add _ _
      _ ≤ c + rest.length * c := by linarith
      _ = ((rest.length + 1 : ℕ) : ℚ) * c := by push_cast; ring

/-- The invoice-level CGST/SGST/IGST split. -/
structure GSTBreakdown where
  cgst : ℚ
  sgst : ℚ
  igst : ℚ
deriving DecidableEq

/-- A stored sale, as read back by the invoice detail page and the GST
reports. -/
structure Sale where
  customer_state : String
  items : List CartItem
  subtotal : ℚ
  gst_breakdown : GSTBreakdown
  grand_total : ℚ

/-- Modelled from the spec: the backend invoice builder (`buildInvoice`,
spec §4.2) is not among the repository sources — only its frontend caller
(`CreateSalePage.handleSubmit`) is.  Per the spec: subtotal is the sum of
`total_before_tax`, grand total the sum of `total_after_tax`; if the
customer's state equals the seller's the tax is split evenly into CGST and
SGST with zero IGST, otherwise the whole tax is IGST. -/
def buildInvoice (sellerState customerState : String) (items : List CartItem) : Sale :=
  let totalTax := (items.map CartItem.tax_amount).sum
  { customer_state := customerState
    items := items
    subtotal := (items.map CartItem.total_before_tax).sum
    gst_breakdown :=
      if customerState = sellerState then
        { cgst := totalTax / 2, sgst := totalTax / 2, igst := 0 }
      else
        { cgst := 0, sgst := 0, igst := totalTax }
    grand_total := (items.map CartItem.total_after_tax).sum }

/-- `getGSTType` (`InvoiceDetailPage`, `src/unnamed/part_007` lines 74–77). -/
def getGSTType (sale : Sale) : String :=
  if sale.gst_breakdown.cgst > 0 then "Intra-State (CGST + SGST)"
  else "Inter-State (IGST)"

/-- In both branches of the split, the three GST components add up to the
total tax of the items. -/
theorem buildInvoice_gst_sum (sellerState customerState : String)
    (items : List CartItem) :
    (buildInvoice sellerState customerState items).gst_breakdown.cgst
      + (buildInvoice sellerState customerState items).gst_breakdown.sgst
      + (buildInvoice sellerState customerState items).gst_breakdown.igst
      = (items.map CartItem.tax_amount).sum := by
  rw [buildInvoice]
  by_cases hst : customerState = sellerState <;> simp [hst]

/-- Per-karat pricing configuration (spec §3). -/
structure KaratPricing where
  karat : String
  base_rate_per_gram : ℚ
  making_charge_per_gram : ℚ
  wastage_percentage : ℚ
deriving DecidableEq

/-- Making-charge mode of the calculator request. -/
inductive MakingChargeType where
  | per_gram
  | percentage
deriving DecidableEq

/-- A price calculation request (spec §3), as posted by the karat-pricing
page to `/api/karat-pricing/calculate`. -/
structure PriceCalculationRequest where
  karat : String
  weight_grams : ℚ
  making_charge_type : MakingChargeType
  include_gst : Bool
  stone_value : ℚ
  discount_percentage : ℚ
deriving DecidableEq

/-- The calculator's breakdown (spec §3). -/
structure PriceCalculationResult where
  gold_value : ℚ
  making_charges : ℚ
  wastage_charges : ℚ
  stone_value : ℚ
  discount_amount : ℚ
  taxable_amount : ℚ
  cgst : ℚ
  sgst : ℚ
  total_gst : ℚ
  grand_total : ℚ
deriving DecidableEq

/-- Error taxonomy of the calculator (spec §7). -/
inductive CalcError where
  | validationError
  | notFoundError
deriving DecidableEq

/-- Modelled from the spec: `gold_value = weight_grams × base_rate_per_gram`
(spec §4.1). -/
def goldValue (pricing : KaratPricing) (req : PriceCalculationRequest) : ℚ :=
  req.weight_grams * pricing.base_rate_per_gram

/-- Modelled from the spec: per-gram or percentage making charges
(spec §4.1); the percentage mode uses the gold value alone as its base. -/
def makingCharges (pricing : KaratPricing) (req : PriceCalculationRequest) : ℚ :=
  match req.making_charge_type with
  | .per_gram => req.weight_grams * pricing.making_charge_per_gram
  | .percentage => goldValue pricing req * (pricing.making_charge_per_gram / 100)

/-- Modelled from the spec: `wastage_charges = gold_value × wastage% / 100`
(spec §4.1). -/
def wastageCharges (pricing : KaratPricing) (req : PriceCalculationRequest) : ℚ :=
  goldValue pricing req * (pricing.wastage_percentage / 100)

/-- Modelled from the spec: the discount applies to the whole pre-tax value
(spec §4.1). -/
def discountAmount (pricing : KaratPricing) (req : PriceCalculationRequest) : ℚ :=
  (goldValue pricing req + makingCharges pricing req + wastageCharges pricing req
    + req.stone_value) * (req.discount_percentage / 100)

/-- Modelled from the spec: taxable amount before GST (spec §4.1). -/
def taxableAmount (pricing : KaratPricing) (req : PriceCalculationRequest) : ℚ :=
  goldValue pricing req + makingCharges pricing req + wastageCharges pricing req
    + req.stone_value - discountAmount pricing req

/-- Modelled from the spec: the backend karat price calculator
(`/api/karat-pricing/calculate`, spec §4.1) is not among the repository
sources — only its frontend caller (`KaratPricingPage.calculatePrice`) is.
Nonpositive weight and unknown karats fail, a negative taxable amount fails,
and with GST included a flat 3% is charged, split evenly into CGST and
SGST. -/
def calculate (pricingList : List KaratPricing) (req : PriceCalculationRequest) :
    Except CalcError PriceCalculationResult :=
  if req.weight_grams ≤ 0 then .error .validationError
  else
    match pricingList.find? (fun p => p.karat == req.karat) with
    | none => .error .notFoundError
    | some pricing =>
      let taxable := taxableAmount pricing req
      if taxable < 0 then .error .validationError
      else
        let total_gst := if req.include_gst then taxable * (3 / 100) else 0
        .ok { gold_value := goldValue pricing req
              making_charges := makingCharges pricing req
              wastage_charges := wastageCharges pricing req
              stone_value := req.stone_value
              discount_amount := discountAmount pricing req
              taxable_amount := taxable
              cgst := total_gst / 2
              sgst := total_gst / 2
              total_gst := total_gst
              grand_total := taxable + total_gst }

/-- A sale's date and aggregate tax, as consumed by the GSTR-3B
aggregation; dates are day indices. -/
structure SaleTaxRecord where
  date : ℕ
  tax_amount : ℚ
deriving DecidableEq

/-- A purchase order's date, received flag and aggregate tax. -/
structure PurchaseOrderRecord where
  date : ℕ
  received : Bool
  tax_amount : ℚ
deriving DecidableEq

/-- The GSTR-3B summary figures rendered by `GSTReportsPage`. -/
structure GSTR3BReport where
  outward_tax_amount : ℚ
  inward_tax_amount : ℚ
  net_tax_payable : ℚ
deriving DecidableEq

/-- Modelled from the spec: the backend GSTR-3B generator (spec §4.3) is not
among the repository sources — only its rendering (`GSTReportsPage`, gstr3b
branch) is.  Outward tax aggregates all sales in the period, inward tax all
received purchase orders in the period, and the net payable is their
difference, not clamped at zero. -/
def generateGSTR3B (fromDate toDate : ℕ) (sales : List SaleTaxRecord)
    (purchaseOrders : List PurchaseOrderRecord) : GSTR3BReport :=
  let outward := ((sales.filter
    (fun s => decide (fromDate ≤ s.date ∧ s.date ≤ toDate))).map SaleTaxRecord.tax_amount).sum
  let inward := ((purchaseOrders.filter
    (fun p => p.received && decide (fromDate ≤ p.date ∧ p.date ≤ toDate))).map
      PurchaseOrderRecord.tax_amount).sum
  { outward_tax_amount := outward
    inward_tax_amount := inward
    net_tax_payable := outward - inward }

/-- A locally entered purchase record, keyed by supplier GSTIN and invoice
number. -/
structure PurchaseRecord where
  supplier_gstin : String
  invoice_number : String
  taxable_value : ℚ
deriving DecidableEq

/-- A government-supplied GSTR-2A/2B record. -/
structure GSTRRecord where
  supplier_gstin : String
  invoice_number : String
  taxable_value : ℚ
deriving DecidableEq

/-- Categories of reconciliation discrepancies (spec §4.4). -/
inductive DiscrepancyType where
  | missing_in_2a
  | missing_in_2b
  | missing_locally
  | amount_mismatch
deriving DecidableEq

/-- One reconciliation discrepancy entry. -/
structure Discrepancy where
  dtype : DiscrepancyType
  supplier_gstin : String
  invoice_number : String
deriving DecidableEq

/-- Key equality on `(supplier_gstin, invoice_number)` (spec §4.4). -/
def sameKey (gstin invoiceNo : String) (g : GSTRRecord) : Bool :=
  g.supplier_gstin == gstin && g.invoice_number == invoiceNo

/-- A government record matches a local record when the keys agree and the
taxable values differ by at most the `0.01` tolerance (spec §4.4). -/
def matchesRecord (r : PurchaseRecord) (g : GSTRRecord) : Bool :=
  sameKey r.supplier_gstin r.invoice_number g
    && decide (|r.taxable_value - g.taxable_value| ≤ 1 / 100)

/-- A local record is matched when some GSTR-2A or GSTR-2B record matches it
(spec §4.4). -/
def isMatched (gstr2a gstr2b : List GSTRRecord) (r : PurchaseRecord) : Bool :=
  (gstr2a ++ gstr2b).any (matchesRecord r)

/-- Modelled from the spec: discrepancy classification of an unmatched local
record (spec §4.4).  A key present in the government data with a deviating
amount is an `amount_mismatch`; a key absent from the government data is
reported against GSTR-2B, the statutory source of truth for ITC. -/
def localDiscrepancy (gstr2a gstr2b : List GSTRRecord) (r : PurchaseRecord) :
    Option Discrepancy :=
  if isMatched gstr2a gstr2b r then none
  else if (gstr2a ++ gstr2b).any (sameKey r.supplier_gstin r.invoice_number) then
    some { dtype := .amount_mismatch, supplier_gstin := r.supplier_gstin
           invoice_number := r.invoice_number }
  else
    some { dtype := .missing_in_2b, supplier_gstin := r.supplier_gstin
           invoice_number := r.invoice_number }

/-- The reconciliation summary (spec §3). -/
structure ReconciliationResult where
  filing_period : String
  matched_records : ℕ
  unmatched_records : ℕ
  variance_amount : ℚ
  discrepancies : List Discrepancy
deriving DecidableEq

/-- Modelled from the spec: the backend GSTR-2A/2B reconciliation matcher
(spec §4.4) is not among the repository sources — only its rendering
(`GSTReportsPage`, itc-reconciliation branch) is.  Local records are matched
against the union of GSTR-2A and GSTR-2B on `(supplier_gstin,
invoice_number)` with a `0.01` value tolerance; unmatched local records are
classified by `localDiscrepancy`, and GSTR-2B records without a local
counterpart are reported as `missing_locally`. -/
def reconcile (filingPeriod : String) (gstr2a gstr2b : List GSTRRecord)
    (localRecords : List PurchaseRecord) : ReconciliationResult :=
  { filing_period := filingPeriod
    matched_records := (localRecords.filter (isMatched gstr2a gstr2b)).length
    unmatched_records :=
      (localRecords.filter (fun r => !(isMatched gstr2a gstr2b r))).length
    variance_amount := (gstr2a.map GSTRRecord.taxable_value).sum
      - (localRecords.map PurchaseRecord.taxable_value).sum
    discrepancies :=
      localRecords.filterMap (localDiscrepancy gstr2a gstr2b)
        ++ (gstr2b.filter (fun g => !(localRecords.any (fun r =>
              sameKey r.supplier_gstin r.invoice_number g)))).map
            (fun g => { dtype := .missing_locally, supplier_gstin := g.supplier_gstin
                        invoice_number := g.invoice_number }) }

/-- The purity options offered by the product form's select. -/
inductive Purity where
  | k24
  | k22
  | k18
  | k14
deriving DecidableEq

/-- The hard-coded `goldRates` table in `calculateBasePrice`
(`ProductFormPage.js` line 87). -/
def goldRates : Purity → ℚ
  | .k24 => 6450
  | .k22 => 5910
  | .k18 => 4840
  | .k14 => 3760

/-- `parseFloat(value) || 0`: a field that fails to parse contributes 0. -/
def parseOr0 (x : Option ℚ) : ℚ := x.getD 0

/-- `calculateBasePrice` (`ProductFormPage.js` lines 81–92): gold weight
times the purity's rate, plus making and stone charges, stored with
`toFixed(2)`.  There is no wastage term. -/
def calculateBasePrice (gold_weight making_charges stone_charges : Option ℚ)
    (purity : Purity) : ℚ :=
  round2 (parseOr0 gold_weight * goldRates purity + parseOr0 making_charges
    + parseOr0 stone_charges)

/-- The selling-price display (`ProductFormPage.js` lines 362–367):
`(parseFloat(base_price) * (1 + parseFloat(gst_rate) / 100) || 0).toFixed(2)`;
a failed parse renders 0. -/
def sellingPriceDisplay (base_price gst_rate : Option ℚ) : ℚ :=
  match base_price, gst_rate with
  | some b, some r => round2 (b * (1 + r / 100))
  | _, _ => 0

/-- A concrete cart line used to instantiate hypothesis-bearing theorems. -/
def sampleItem : CartItem :=
  { product_id := 7, product_name := "Chain", sku := "C7", quantity := 2
    unit_price := 103, hsn_code := "71131900", gst_rate := 3
    total_before_tax := 200, tax_amount := 6, total_after_tax := 206
    max_quantity := 4 }

/-- C2: for every invoice built by `buildInvoice`, an intra-state customer
gets `igst = 0` and `cgst = sgst = sum(tax_amount)/2`, and an inter-state
customer gets `cgst = sgst = 0` and `igst = sum(tax_amount)`. -/
theorem C2_invoice_gst_split (sellerState customerState : String)
    (items : List CartItem) :
    (customerState = sellerState →
      (buildInvoice sellerState customerState items).gst_breakdown.igst = 0 ∧
      (buildInvoice sellerState customerState items).gst_breakdown.cgst
        = (items.map CartItem.tax_amount).sum / 2 ∧
      (buildInvoice sellerState customerState items).gst_breakdown.sgst
        = (items.map CartItem.tax_amount).sum / 2) ∧
    (customerState ≠ sellerState →
      (buildInvoice sellerState customerState items).gst_breakdown.cgst = 0 ∧
      (buildInvoice sellerState customerState items).gst_breakdown.sgst = 0 ∧
      (buildInvoice sellerState customerState items).gst_breakdown.igst
        = (items.map CartItem.tax_amount).sum) := by
  constructor <;> intro hst <;> simp [buildInvoice, hst]

/-- Witness for C2: both branches at concrete states and a one-line cart. -/
theorem C2_invoice_gst_split_witness :
    ((buildInvoice "Maharashtra" "Maharashtra" [sampleItem]).gst_breakdown.igst = 0 ∧
      (buildInvoice "Maharashtra" "Maharashtra" [sampleItem]).gst_breakdown.cgst
        = ([sampleItem].map CartItem.tax_amount).sum / 2 ∧
      (buildInvoice "Maharashtra" "Maharashtra" [sampleItem]).gst_breakdown.sgst
        = ([sampleItem].map CartItem.tax_amount).sum / 2) ∧
    ((buildInvoice "Maharashtra" "Delhi" [sampleItem]).gst_breakdown.cgst = 0 ∧
      (buildInvoice "Maharashtra" "Delhi" [sampleItem]).gst_breakdown.sgst = 0 ∧
      (buildInvoice "Maharashtra" "Delhi" [sampleItem]).gst_breakdown.igst
        = ([sampleItem].map CartItem.tax_amount).sum) :=
  ⟨(C2_invoice_gst_split "Maharashtra" "Maharashtra" [sampleItem]).1 rfl,
    (C2_invoice_gst_split "Maharashtra" "Delhi" [sampleItem]).2 (by decide)⟩

/-- Sample period data on which the GSTR-3B net tax payable is negative. -/
def gstr3bSampleSales : List SaleTaxRecord := [{ date := 5, tax_amount := 100 }]

/-- Sample received purchase orders with more input tax than output tax. -/
def gstr3bSamplePOs : List PurchaseOrderRecord :=
  [{ date := 6, received := true, tax_amount := 250 }]

/-- C6: the GSTR-3B net tax payable is outward tax minus inward tax for
every date range, and it can be negative — it is not clamped at zero. -/
theorem C6_gstr3b_net_tax :
    (∀ (fromDate toDate : ℕ) (sales : List SaleTaxRecord)
        (purchaseOrders : List PurchaseOrderRecord),
      (generateGSTR3B fromDate toDate sales purchaseOrders).net_tax_payable
        = (generateGSTR3B fromDate toDate sales purchaseOrders).outward_tax_amount
          - (generateGSTR3B fromDate toDate sales purchaseOrders).inward_tax_amount) ∧
    (generateGSTR3B 1 31 gstr3bSampleSales gstr3bSamplePOs).net_tax_payable < 0 := by
  constructor
  · intro fromDate toDate sales purchaseOrders
    rfl
  · simp [generateGSTR3B, gstr3bSampleSales, gstr3bSamplePOs]
    norm_num

/-- C9: the product form's auto-calculated base price is
`gold_weight × rate[purity] + making_charges + stone_charges` rounded to two
decimals, over the hard-coded rate table and with no wastage term, and the
displayed selling price is `base_price × (1 + gst_rate/100)` rounded to two
decimals. -/
theorem C9_product_form_pricing :
    (∀ (w m s : ℚ) (purity : Purity),
      calculateBasePrice (some w) (some m) (some s) purity
        = round2 (w * goldRates purity + m + s)) ∧
    goldRates Purity.k24 = 6450 ∧ goldRates Purity.k22 = 5910 ∧
    goldRates Purity.k18 = 4840 ∧ goldRates Purity.k14 = 3760 ∧
    (∀ (b r : ℚ), sellingPriceDisplay (some b) (some r) = round2 (b * (1 + r / 100))) :=
  ⟨fun _ _ _ _ => rfl, rfl, rfl, rfl, rfl, fun _ _ => rfl⟩

/-- A zero-tax sale: an intra-state invoice over an empty cart has
`cgst = 0` and `igst = 0`. -/
def zeroTaxSale : Sale := buildInvoice "Maharashtra" "Maharashtra" []

/-- C10: the invoice detail page shows "Intra-State (CGST + SGST)" exactly
when `cgst > 0`; a sale with `cgst = 0` and `igst = 0` is shown as
"Inter-State (IGST)". -/
theorem C10_gst_type_classification :
    (∀ sale : Sale,
      getGSTType sale = "Intra-State (CGST + SGST)" ↔ sale.gst_breakdown.cgst > 0) ∧
    zeroTaxSale.gst_breakdown.cgst = 0 ∧ zeroTaxSale.gst_breakdown.igst = 0 ∧
    getGSTType zeroTaxSale = "Inter-State (IGST)" := by
  refine ⟨?_, by simp [zeroTaxSale, buildInvoice], by simp [zeroTaxSale, buildInvoice], ?_⟩
  · intro sale
    rw [getGSTType]
    by_cases h : sale.gst_breakdown.cgst > 0
    · rw [if_pos h]
      simp [h]
    · rw [if_neg h]
      constructor
      · intro hstr
        exact absurd hstr (by decide)
      · intro hpos
        exact absurd hpos h
  · rw [getGSTType, if_neg]
    simp [zeroTaxSale, buildInvoice]

/-- The 22K pricing row of spec scenario 1. -/
def scenarioPricing : KaratPricing :=
  { karat := "22K", base_rate_per_gram := 5910, making_charge_per_gram := 500
    wastage_percentage := 2 }

/-- The request of spec scenario 1: 10 g of 22K, per-gram making charges,
2% wastage, no stones, no discount, GST included. -/
def scenarioRequest : PriceCalculationRequest :=
  { karat := "22K", weight_grams := 10, making_charge_type := .per_gram
    include_gst := true, stone_value := 0, discount_percentage := 0 }

/-- The breakdown the spec expects for scenario 1. -/
def scenarioResult : PriceCalculationResult :=
  { gold_value := 59100, making_charges := 5000, wastage_charges := 1182
    stone_value := 0, discount_amount := 0, taxable_amount := 65282
    cgst := 979.23, sgst := 979.23, total_gst := 1958.46
    grand_total := 67240.46 }

theorem calculate_scenario :
    calculate [scenarioPricing] scenarioRequest = .ok scenarioResult := by
  rw [calculate]
  rw [if_neg (by norm_num [scenarioRequest])]
  have hfind : ([scenarioPricing].find? (fun p => p.karat == scenarioRequest.karat))
      = some scenarioPricing := by
    simp [scenarioPricing, scenarioRequest]
  rw [hfind]
  simp only [scenarioPricing, scenarioRequest, scenarioResult, taxableAmount,
    goldValue, makingCharges, wastageCharges, discountAmount]
  norm_num

/-- C4: with GST included, the calculator charges a flat 3% on the taxable
amount, split evenly into CGST and SGST, and the grand total is taxable plus
GST; on spec scenario 1 it returns exactly the published breakdown. -/
theorem C4_karat_calculator :
    (∀ (pricingList : List KaratPricing) (req : PriceCalculationRequest)
        (res : PriceCalculationResult),
      calculate pricingList req = .ok res → req.include_gst = true →
      res.total_gst = res.taxable_amount * (3 / 100) ∧
      res.cgst = res.total_gst / 2 ∧ res.sgst = res.total_gst / 2 ∧
      res.grand_total = res.taxable_amount + res.total_gst) ∧
    calculate [scenarioPricing] scenarioRequest = .ok scenarioResult := by
  refine ⟨?_, calculate_scenario⟩
  intro pricingList req res h hgst
  rw [calculate] at h
  by_cases hw : req.weight_grams ≤ 0
  · rw [if_pos hw] at h
    exact absurd h (by simp)
  · rw [if_neg hw] at h
    cases hfind : pricingList.find? (fun p => p.karat == req.karat) with
    | none =>
      rw [hfind] at h
      exact absurd h (by simp)
    | some pricing =>
      rw [hfind] at h
      dsimp only at h
      rw [hgst] at h
      simp only [eq_self_iff_true, if_true] at h
      by_cases htax : taxableAmount pricing req < 0
      · rw [if_pos htax] at h
        exact absurd h (by simp)
      · rw [if_neg htax] at h
        have hres := (Except.ok.inj h).symm
        subst hres
        exact ⟨rfl, rfl, rfl, rfl⟩

/-- Witness for C4: scenario 1's stored breakdown satisfies the general GST
equations. -/
theorem C4_karat_calculator_witness :
    scenarioResult.total_gst = scenarioResult.taxable_amount * (3 / 100) ∧
    scenarioResult.cgst = scenarioResult.total_gst / 2 ∧
    scenarioResult.sgst = scenarioResult.total_gst / 2 ∧
    scenarioResult.grand_total = scenarioResult.taxable_amount + scenarioResult.total_gst :=
  C4_karat_calculator.1 [scenarioPricing] scenarioRequest scenarioResult
    C4_karat_calculator.2 rfl

/-- C7: nonpositive weight fails with ValidationError, an unknown karat with
NotFoundError, a negative taxable amount with ValidationError; every
successful calculation has a nonnegative taxable amount. -/
theorem C7_calculator_error_handling :
    (∀ (pricingList : List KaratPricing) (req : PriceCalculationRequest),
      req.weight_grams ≤ 0 →
      calculate pricingList req = .error .validationError) ∧
    (∀ (pricingList : List KaratPricing) (req : PriceCalculationRequest),
      0 < req.weight_grams →
      pricingList.find? (fun p => p.karat == req.karat) = none →
      calculate pricingList req = .error .notFoundError) ∧
    (∀ (pricingList : List KaratPricing) (req : PriceCalculationRequest)
        (pricing : KaratPricing),
      0 < req.weight_grams →
      pricingList.find? (fun p => p.karat == req.karat) = some pricing →
      taxableAmount pricing req < 0 →
      calculate pricingList req = .error .validationError) ∧
    (∀ (pricingList : List KaratPricing) (req : PriceCalculationRequest)
        (res : PriceCalculationResult),
      calculate pricingList req = .ok res → 0 ≤ res.taxable_amount) := by
  refine ⟨?_, ?_, ?_, ?_⟩
  · intro pricingList req hw
    rw [calculate, if_pos hw]
  · intro pricingList req hw hfind
    rw [calculate, if_neg (not_le.mpr hw), hfind]
  · intro pricingList req pricing hw hfind hneg
    rw [calculate, if_neg (not_le.mpr hw), hfind]
    simp only [if_pos hneg]
  · intro pricingList req res h
    rw [calculate] at h
    by_cases hw : req.weight_grams ≤ 0
    · rw [if_pos hw] at h
      exact absurd h (by simp)
    · rw [if_neg hw] at h
      cases hfind : pricingList.find? (fun p => p.karat == req.karat) with
      | none =>
        rw [hfind] at h
        exact absurd h (by simp)
      | some pricing =>
        rw [hfind] at h
        dsimp only at h
        by_cases htax : taxableAmount pricing req < 0
        · rw [if_pos htax] at h
          exact absurd h (by simp)
        · rw [if_neg htax] at h
          have hres := (Except.ok.inj h).symm
          subst hres
          exact not_lt.mp htax

/-- Witness for C7: each error path and a successful calculation at concrete
inputs. -/
theorem C7_calculator_error_handling_witness :
    calculate [scenarioPricing] { scenarioRequest with weight_grams := -1 }
      = .error .validationError ∧
    calculate [scenarioPricing] { scenarioRequest with karat := "99K" }
      = .error .notFoundError ∧
    calculate [scenarioPricing] { scenarioRequest with discount_percentage := 200 }
      = .error .validationError ∧
    0 ≤ scenarioResult.taxable_amount := by
  refine ⟨?_, ?_, ?_, ?_⟩
  · exact C7_calculator_error_handling.1 _ _ (by norm_num [scenarioRequest])
  · exact C7_calculator_error_handling.2.1 _ _ (by norm_num [scenarioRequest])
      (by simp [scenarioPricing, scenarioRequest])
  · exact C7_calculator_error_handling.2.2.1 _ _ scenarioPricing
      (by norm_num [scenarioRequest]) (by simp [scenarioPricing, scenarioRequest])
      (by norm_num [taxableAmount, goldValue, makingCharges, wastageCharges,
        discountAmount, scenarioPricing, scenarioRequest])
  · exact C7_calculator_error_handling.2.2.2 _ _ _ calculate_scenario

/-- Spec scenario 3's five locally entered purchase records. -/
def scenarioLocalRecords : List PurchaseRecord :=
  [{ supplier_gstin := "G1", invoice_number := "I1", taxable_value := 1000 },
   { supplier_gstin := "G2", invoice_number := "I2", taxable_value := 2000 },
   { supplier_gstin := "G3", invoice_number := "I3", taxable_value := 3000 },
   { supplier_gstin := "G4", invoice_number := "I4", taxable_value := 4000 },
   { supplier_gstin := "G5", invoice_number := "I5", taxable_value := 5000 }]

/-- Spec scenario 3's GSTR-2B import: the first four records, equal values,
the fifth missing. -/
def scenarioGstr2b : List GSTRRecord :=
  [{ supplier_gstin := "G1", invoice_number := "I1", taxable_value := 1000 },
   { supplier_gstin := "G2", invoice_number := "I2", taxable_value := 2000 },
   { supplier_gstin := "G3", invoice_number := "I3", taxable_value := 3000 },
   { supplier_gstin := "G4", invoice_number := "I4", taxable_value := 4000 }]

/-- C5: a local record is matched exactly when some GSTR-2A/2B record agrees
on `(supplier_gstin, invoice_number)` with taxable value within `0.01`; on
spec scenario 3 the matcher reports 4 matched, 1 unmatched, and exactly one
discrepancy, of type `missing_in_2b`. -/
theorem C5_reconciliation_matching :
    (∀ (gstr2a gstr2b : List GSTRRecord) (r : PurchaseRecord),
      isMatched gstr2a gstr2b r = true ↔
        ∃ g ∈ gstr2a ++ gstr2b, g.supplier_gstin = r.supplier_gstin ∧
          g.invoice_number = r.invoice_number ∧
          |r.taxable_value - g.taxable_value| ≤ 1 / 100) ∧
    (reconcile "012026" [] scenarioGstr2b scenarioLocalRecords).matched_records = 4 ∧
    (reconcile "012026" [] scenarioGstr2b scenarioLocalRecords).unmatched_records = 1 ∧
    (reconcile "012026" [] scenarioGstr2b scenarioLocalRecords).discrepancies
      = [{ dtype := .missing_in_2b, supplier_gstin := "G5", invoice_number := "I5" }] := by
  refine ⟨?_, ?_, ?_, ?_⟩
  · intro gstr2a gstr2b r
    rw [isMatched, List.any_eq_true]
    simp [matchesRecord, sameKey, and_assoc]
  · norm_num [reconcile, scenarioGstr2b, scenarioLocalRecords, isMatched,
      matchesRecord, sameKey]
  · norm_num [reconcile, scenarioGstr2b, scenarioLocalRecords, isMatched,
      matchesRecord, sameKey]
  · have h1 : localDiscrepancy [] scenarioGstr2b
        { supplier_gstin := "G1", invoice_number := "I1", taxable_value := 1000 }
        = none := by
      norm_num [localDiscrepancy, isMatched, matchesRecord, sameKey, scenarioGstr2b]
    have h2 : localDiscrepancy [] scenarioGstr2b
        { supplier_gstin := "G2", invoice_number := "I2", taxable_value := 2000 }
        = none := by
      norm_num [localDiscrepancy, isMatched, matchesRecord, sameKey, scenarioGstr2b]
    have h3 : localDiscrepancy [] scenarioGstr2b
        { supplier_gstin := "G3", invoice_number := "I3", taxable_value := 3000 }
        = none := by
      norm_num [localDiscrepancy, isMatched, matchesRecord, sameKey, scenarioGstr2b]
    have h4 : localDiscrepancy [] scenarioGstr2b
        { supplier_gstin := "G4", invoice_number := "I4", taxable_value := 4000 }
        = none := by
      norm_num [localDiscrepancy, isMatched, matchesRecord, sameKey, scenarioGstr2b]
    have h5 : localDiscrepancy [] scenarioGstr2b
        { supplier_gstin := "G5", invoice_number := "I5", taxable_value := 5000 }
        = some { dtype := .missing_in_2b, supplier_gstin := "G5"
                 invoice_number := "I5" } := by
      have hnm : isMatched [] scenarioGstr2b
          { supplier_gstin := "G5", invoice_number := "I5", taxable_value := 5000 }
          = false := by
        norm_num [isMatched, matchesRecord, sameKey, scenarioGstr2b]
      have hnk : ¬((([] : List GSTRRecord) ++ scenarioGstr2b).any
          (sameKey "G5" "I5") = true) := by
        norm_num [sameKey, scenarioGstr2b]
        decide
      rw [localDiscrepancy]
      dsimp only
      rw [hnm]
      rw [if_neg (by simp : ¬(false = true))]
      rw [if_neg hnk]
    rw [reconcile]
    dsimp only
    rw [scenarioLocalRecords]
    simp only [List.filterMap_cons, List.filterMap_nil, h1, h2, h3, h4, h5]
    norm_num [sameKey, scenarioGstr2b]

/-- A product whose id matches `sampleItem`, with positive stock. -/
def sampleProduct : Product :=
  { id := 7, name := "Chain", sku := "C7", selling_price := 103, base_price := 100
    gst_rate := 3, hsn_code := "71131900", quantity := 4 }

/-- C8: every sequence of cart operations preserves the cart invariants —
one line per product and every quantity between 1 and the line's stock
cap — re-adding an existing product never appends a duplicate line, and
`updateQuantity` with a non-positive quantity removes the product's line. -/
theorem C8_cart_invariants :
    (∀ (ops : List CartOp) (cart : List CartItem),
      CartInv cart → (∀ p : Product, CartOp.add p ∈ ops → 1 ≤ p.quantity) →
      CartInv (applyOps ops cart)) ∧
    (∀ (cart : List CartItem) (p : Product),
      CartInv cart → (∃ item ∈ cart, item.product_id = p.id) →
      (addToCart cart p).length = cart.length) ∧
    (∀ (cart : List CartItem) (pid : ℕ) (q : ℤ),
      CartInv cart → q ≤ 0 →
      ∀ item ∈ updateQuantity cart pid q, item.product_id ≠ pid) :=
  ⟨fun _ _ h hstock => cartInv_applyOps h hstock,
    fun _ _ hinv hmem => addToCart_length_of_mem hinv hmem,
    fun _ _ _ hinv hq => updateQuantity_removes hinv hq⟩

/-- Witness for C8: the invariant after a concrete add, length preservation
on a concrete re-add, and removal by a concrete zero-quantity update. -/
theorem C8_cart_invariants_witness :
    CartInv (applyOps [CartOp.add sampleProduct] []) ∧
    (addToCart [sampleItem] sampleProduct).length = [sampleItem].length ∧
    (∀ item ∈ updateQuantity [sampleItem] 7 0, item.product_id ≠ 7) := by
  have hinv : CartInv [sampleItem] := by
    constructor
    · simp
    · intro item hitem
      rw [List.mem_singleton] at hitem
      subst hitem
      refine ⟨by norm_num [sampleItem], by norm_num [sampleItem]⟩
  refine ⟨?_, ?_, ?_⟩
  · refine C8_cart_invariants.1 [CartOp.add sampleProduct] [] ?_ ?_
    · exact ⟨by simp, by simp⟩
    · intro p hp
      rw [List.mem_singleton] at hp
      have hps : p = sampleProduct := by
        cases hp
        rfl
      subst hps
      norm_num [sampleProduct]
  · exact C8_cart_invariants.2.1 [sampleItem] sampleProduct hinv
      ⟨sampleItem, by simp, rfl⟩
  · exact C8_cart_invariants.2.2 [sampleItem] 7 0 hinv (by norm_num)

/-- A product whose stored `base_price` is not the GST-exclusive part of its
selling price. -/
def c1Product : Product :=
  { id := 1, name := "Ring", sku := "R1", selling_price := 100, base_price := 90
    gst_rate := 3, hsn_code := "7113", quantity := 5 }

/-- C1 counterexample: a line freshly appended by `addToCart` copies the
product's `base_price` into `total_before_tax`, so the equation
`total_before_tax = round2 (total_after_tax / (1 + gst_rate/100))` fails
whenever `base_price` is not that value — here 90 against 97.09. -/
theorem C1_counterexample :
    ¬ (∀ item ∈ addToCart [] c1Product,
        item.total_after_tax = round2 (item.unit_price * (item.quantity : ℚ)) ∧
        item.total_before_tax
          = round2 (item.total_after_tax / (1 + item.gst_rate / 100)) ∧
        item.total_after_tax = item.total_before_tax + item.tax_amount) := by
  intro hall
  have hmem : newItem c1Product ∈ addToCart [] c1Product := by
    rw [addToCart]
    simp
  have h := (hall _ hmem).2.1
  rw [newItem] at h
  simp only [c1Product] at h
  rw [round2, rat_floor_eq_int_floor] at h
  norm_num at h

/-- C1 (amended): a line recomputed by `updateQuantity` stores
`round2(unit_price·q)`, `round2(unit_price·q/(1+gst_rate/100))` and the
rounded difference, and its three stored fields agree to within `0.01`; a
line freshly appended by `addToCart` satisfies
`total_after_tax = unit_price × quantity` and
`total_after_tax = total_before_tax + tax_amount` exactly, but its
`total_before_tax` is the product's `base_price`, which need not equal
`total_after_tax / (1 + gst_rate/100)`. -/
theorem C1_cart_item_tax_fields :
    (∀ (pid : ℕ) (q : ℤ) (item item' : CartItem),
      item.product_id = pid → 0 < q → q ≤ item.max_quantity →
      updItem pid q item = some item' →
      item'.total_after_tax = round2 (item'.unit_price * (q : ℚ)) ∧
      item'.total_before_tax
        = round2 (item'.unit_price / (1 + item'.gst_rate / 100) * (q : ℚ)) ∧
      |item'.total_after_tax - (item'.total_before_tax + item'.tax_amount)|
        ≤ 1 / 100) ∧
    (∀ (cart : List CartItem) (p : Product),
      cart.find? (fun item => item.product_id == p.id) = none →
      addToCart cart p = cart ++ [newItem p]) ∧
    (∀ p : Product,
      (newItem p).total_before_tax = p.base_price ∧
      (newItem p).total_after_tax
        = (newItem p).unit_price * ((newItem p).quantity : ℚ) ∧
      (newItem p).total_after_tax
        = (newItem p).total_before_tax + (newItem p).tax_amount) := by
  refine ⟨?_, ?_, ?_⟩
  · intro pid q item item' hpid hq0 hqmax hsome
    rw [updItem, if_pos hpid, if_neg (not_lt.mpr hqmax), if_neg (not_le.mpr hq0)] at hsome
    have hres := (Option.some.inj hsome).symm
    subst hres
    refine ⟨rfl, rfl, ?_⟩
    exact abs_round2_split (item.unit_price * (q : ℚ))
      (item.unit_price / (1 + item.gst_rate / 100) * (q : ℚ))
  · intro cart p hfind
    rw [addToCart, hfind]
  · intro p
    refine ⟨rfl, ?_, ?_⟩
    · rw [newItem]
      simp
    · rw [newItem]
      simp

/-- The line produced by recomputing `sampleItem` at quantity 3. -/
def c1UpdatedItem : CartItem :=
  { sampleItem with
    quantity := 3
    total_before_tax := round2 (sampleItem.unit_price
      / (1 + sampleItem.gst_rate / 100) * ((3 : ℤ) : ℚ))
    tax_amount := round2 (sampleItem.unit_price * ((3 : ℤ) : ℚ)
      - sampleItem.unit_price / (1 + sampleItem.gst_rate / 100) * ((3 : ℤ) : ℚ))
    total_after_tax := round2 (sampleItem.unit_price * ((3 : ℤ) : ℚ)) }

/-- Witness for C1 (amended) at a concrete update and a concrete fresh
add. -/
theorem C1_cart_item_tax_fields_witness :
    (c1UpdatedItem.total_after_tax
        = round2 (c1UpdatedItem.unit_price * ((3 : ℤ) : ℚ)) ∧
      c1UpdatedItem.total_before_tax
        = round2 (c1UpdatedItem.unit_price
          / (1 + c1UpdatedItem.gst_rate / 100) * ((3 : ℤ) : ℚ)) ∧
      |c1UpdatedItem.total_after_tax
        - (c1UpdatedItem.total_before_tax + c1UpdatedItem.tax_amount)| ≤ 1 / 100) ∧
    addToCart [] c1Product = [] ++ [newItem c1Product] ∧
    ((newItem c1Product).total_before_tax = c1Product.base_price ∧
      (newItem c1Product).total_after_tax
        = (newItem c1Product).unit_price * ((newItem c1Product).quantity : ℚ) ∧
      (newItem c1Product).total_after_tax
        = (newItem c1Product).total_before_tax + (newItem c1Product).tax_amount) := by
  have hupd : updItem 7 3 sampleItem = some c1UpdatedItem := by
    rw [updItem, if_pos (show sampleItem.product_id = 7 from rfl),
      if_neg (show ¬((3 : ℤ) > sampleItem.max_quantity) by norm_num [sampleItem]),
      if_neg (show ¬((3 : ℤ) ≤ 0) by norm_num)]
    rfl
  exact ⟨C1_cart_item_tax_fields.1 7 3 sampleItem c1UpdatedItem rfl (by norm_num)
      (by norm_num [sampleItem]) hupd,
    C1_cart_item_tax_fields.2.1 [] c1Product rfl,
    C1_cart_item_tax_fields.2.2 c1Product⟩

/-- A product whose price makes the per-line rounding drift hit a full
hundredth: `0.52118 / 1.03 = 0.506` rounds to `0.51` while the tax part
`0.01518` rounds to `0.02`. -/
def c3p1 : Product :=
  { id := 1, name := "A", sku := "A1", selling_price := 52118 / 100000
    base_price := 1 / 2, gst_rate := 3, hsn_code := "7113", quantity := 5 }

/-- A second product with the same price. -/
def c3p2 : Product := { c3p1 with id := 2, name := "B", sku := "B1" }

/-- Add both products, then recompute both lines. -/
def c3Ops : List CartOp :=
  [.add c3p1, .add c3p2, .upd 1 1, .upd 2 1]

/-- The first line after recomputation. -/
def c3i1 : CartItem :=
  { newItem c3p1 with
    quantity := 1
    total_before_tax := round2 ((newItem c3p1).unit_price
      / (1 + (newItem c3p1).gst_rate / 100) * ((1 : ℤ) : ℚ))
    tax_amount := round2 ((newItem c3p1).unit_price * ((1 : ℤ) : ℚ)
      - (newItem c3p1).unit_price / (1 + (newItem c3p1).gst_rate / 100) * ((1 : ℤ) : ℚ))
    total_after_tax := round2 ((newItem c3p1).unit_price * ((1 : ℤ) : ℚ)) }

/-- The second line after recomputation. -/
def c3i2 : CartItem :=
  { newItem c3p2 with
    quantity := 1
    total_before_tax := round2 ((newItem c3p2).unit_price
      / (1 + (newItem c3p2).gst_rate / 100) * ((1 : ℤ) : ℚ))
    tax_amount := round2 ((newItem c3p2).unit_price * ((1 : ℤ) : ℚ)
      - (newItem c3p2).unit_price / (1 + (newItem c3p2).gst_rate / 100) * ((1 : ℤ) : ℚ))
    total_after_tax := round2 ((newItem c3p2).unit_price * ((1 : ℤ) : ℚ)) }

theorem c3cart_eval : applyOps c3Ops [] = [c3i1, c3i2] := rfl

/-- The intra-state sale built over the two drifting lines. -/
def c3Sale : Sale := buildInvoice "Maharashtra" "Maharashtra" (applyOps c3Ops [])

/-- C3 counterexample: on a reachable two-line cart the grand total misses
`subtotal + cgst + sgst + igst` by `0.02`, exceeding the claimed flat `0.01`
tolerance. -/
theorem C3_counterexample :
    ¬ (|c3Sale.grand_total - (c3Sale.subtotal + c3Sale.gst_breakdown.cgst
        + c3Sale.gst_breakdown.sgst + c3Sale.gst_breakdown.igst)| ≤ 1 / 100) := by
  have hsale : c3Sale.grand_total - (c3Sale.subtotal + c3Sale.gst_breakdown.cgst
      + c3Sale.gst_breakdown.sgst + c3Sale.gst_breakdown.igst) = -(1 / 50) := by
    rw [c3Sale, c3cart_eval, buildInvoice]
    dsimp only
    rw [if_pos rfl]
    simp only [List.map_cons, List.map_nil, List.sum_cons, List.sum_nil]
    rw [c3i1, c3i2]
    dsimp only
    norm_num [newItem, c3p1, c3p2, round2, rat_floor_eq_int_floor]
  intro hclaim
  rw [hsale, abs_neg, abs_of_nonneg (by norm_num : (0 : ℚ) ≤ 1 / 50)] at hclaim
  norm_num at hclaim

/-- C3 (amended): for every sale built over a reachable cart, the grand
total equals `subtotal + cgst + sgst + igst` to within `0.01` per line item
(`0.01 × number of items`), rather than a flat `0.01`. -/
theorem C3_grand_total_tolerance (sellerState customerState : String)
    (ops : List CartOp) :
    |(buildInvoice sellerState customerState (applyOps ops [])).grand_total
      - ((buildInvoice sellerState customerState (applyOps ops [])).subtotal
        + (buildInvoice sellerState customerState (applyOps ops [])).gst_breakdown.cgst
        + (buildInvoice sellerState customerState (applyOps ops [])).gst_breakdown.sgst
        + (buildInvoice sellerState customerState (applyOps ops [])).gst_breakdown.igst)|
      ≤ ((applyOps ops []).length : ℚ) / 100 := by
  set items := applyOps ops [] with hitems
  have hconsist : ∀ x ∈ items, ItemConsistent x := by
    rw [hitems]
    exact itemConsistent_applyOps ops
  have hsum := abs_sum_sub_le (f := CartItem.total_after_tax)
    (g := CartItem.total_before_tax) (h := CartItem.tax_amount) items hconsist
  have hgst := buildInvoice_gst_sum sellerState customerState items
  have key : (buildInvoice sellerState customerState items).grand_total
      - ((buildInvoice sellerState customerState items).subtotal
        + (buildInvoice sellerState customerState items).gst_breakdown.cgst
        + (buildInvoice sellerState customerState items).gst_breakdown.sgst
        + (buildInvoice sellerState customerState items).gst_breakdown.igst)
      = (items.map CartItem.total_after_tax).sum
        - ((items.map CartItem.total_before_tax).sum
          + (items.map CartItem.tax_amount).sum) := by
    have hgrand : (buildInvoice sellerState customerState items).grand_total
        = (items.map CartItem.total_after_tax).sum := rfl
    have hsub : (buildInvoice sellerState customerState items).subtotal
        = (items.map CartItem.total_before_tax).sum := rfl
    rw [hgrand, hsub, ← hgst]
    ring
  rw [key]
  calc |(items.map CartItem.total_after_tax).sum
      - ((items.map CartItem.total_before_tax).sum
        + (items.map CartItem.tax_amount).sum)|
      ≤ items.length * (1 / 100) := hsum
    _ = (items.length : ℚ) / 100 := by ring
